import Mathlib

/-!
# Verification of the squash splice engine

A shallow embedding of `src/squash/splice.c` and `src/squash/util.c`
(the splice dispatcher, the mapped-file one-shot decompression loop, the
byte-budget limiter callbacks, the stream loop, the one-shot accumulator,
the environment-driven mmap preference, and the cached page size), with
theorems settling the frozen claims about them.

Machine integers (`size_t`) are modelled as `Nat`; the `SquashStatus`
enumeration as `Int` constants (the code relies on errors being negative
and on equality tests against specific codes).  Byte buffers are modelled
by their lengths only: every claim under scrutiny concerns lengths,
statuses and control flow, not byte contents.  C loops whose termination
depends on the codec or the callbacks are modelled with explicit fuel,
returning `none` when the fuel runs out (which corresponds to a
non-terminating C execution); all theorems quantify over or fix the fuel.
User callbacks mutate state through `void* user_data`; here they are pure
functions threading an explicit state of type `σ`.
-/

/-! ## Status codes

Modelled from the spec: the `SquashStatus` enumeration is declared outside
`src/` (only the spec's section 6 lists the kinds).  The spec and the code
rely on `OK`, `PROCESSING` and `END_OF_STREAM` being non-negative and on
every error (including `BUFFER_FULL`) being negative, and on the codes
being pairwise distinct; the concrete numerals below are otherwise
arbitrary.  `squash_error` in the C source just returns its argument after
optional debug logging, so it is the identity here. -/

def SQUASH_OK : Int := 1

def SQUASH_PROCESSING : Int := 2

def SQUASH_END_OF_STREAM : Int := 3

def SQUASH_FAILED : Int := -1

def SQUASH_BAD_PARAM : Int := -3

def SQUASH_MEMORY : Int := -5

def SQUASH_BUFFER_FULL : Int := -6

def SQUASH_INVALID_BUFFER : Int := -11

/-- The I/O error status (named `SQUASH_IO` in the C enumeration). -/
def SQUASH_IO_ERROR : Int := -12

/-- Direction of a splice: `SQUASH_STREAM_COMPRESS` or
`SQUASH_STREAM_DECOMPRESS` in the source. -/
inductive StreamType where
  | compress
  | decompress
deriving DecidableEq

/-- A user read callback (`SquashReadFunc`): receives the requested length
(`*data_length` on entry) and the current user state, returns the status,
the number of bytes actually read (`*data_length` on exit) and the new
user state. -/
abbrev ReadFunc (σ : Type) := Nat → σ → Int × Nat × σ

/-- A user write callback (`SquashWriteFunc`): receives the number of
bytes offered and the user state, returns the status, the number of bytes
actually written and the new user state. -/
abbrev WriteFunc (σ : Type) := Nat → σ → Int × Nat × σ

/-- `SQUASH_SPLICE_BUF_SIZE` (line 490 of `splice.c`). -/
def SQUASH_SPLICE_BUF_SIZE : Nat := 512

/-! ## The locked stdio wrappers

`SQUASH_FREAD_UNLOCKED` / `SQUASH_FWRITE_UNLOCKED` (file utility layer,
outside `src/`).  Modelled from the spec's collaborator contract for
regular files: a read returns `min requested remaining` bytes and raises
the end-of-file flag exactly when it was asked for more than remained; a
write transfers `min requested space` bytes. -/

/-- An input `FILE*`: bytes remaining before end of file, and the stdio
end-of-file flag as reported by `feof`. -/
structure InFile where
  remaining : Nat
  eofFlag : Bool
deriving DecidableEq

/-- An output `FILE*`: free space remaining and bytes written so far. -/
structure OutFile where
  space : Nat
  written : Nat
deriving DecidableEq

/-- Locked `fread` on a regular file. -/
def c_fread (req : Nat) (f : InFile) : Nat × InFile :=
  let got := min req f.remaining
  (got, ⟨f.remaining - got, f.eofFlag || decide (f.remaining < req)⟩)

/-- Locked `fwrite` on a regular file. -/
def c_fwrite (req : Nat) (f : OutFile) : Nat × OutFile :=
  let put := min req f.space
  (put, ⟨f.space - put, f.written + put⟩)

/-! ## The file-splice context and callbacks (lines 368-421) -/

/-- `struct SquashFileSpliceData` (line 368).  The `codec` and `options`
fields of the C struct are never consulted by the two callbacks below and
are omitted. -/
structure FileSpliceData where
  fp_in : InFile
  fp_out : OutFile
  length : Nat
  pos : Nat
  stream_type : StreamType
deriving DecidableEq

/-- `squash_file_splice_read` (lines 378-409): when compressing under a
nonzero byte budget it clamps the request to the budget remainder and
signals `END_OF_STREAM` once the budget is consumed; otherwise it passes
the request through to `fread` and reports `END_OF_STREAM` or an I/O
error when the read comes back empty. -/
def squash_file_splice_read (data_length : Nat) (ctx : FileSpliceData) :
    Int × Nat × FileSpliceData :=
  if ctx.stream_type = StreamType.compress ∧ ctx.length ≠ 0 then
    let remaining := ctx.length - ctx.pos
    if remaining = 0 then
      (SQUASH_END_OF_STREAM, 0, ctx)
    else
      let requested := if data_length < remaining then data_length else remaining
      let r := c_fread requested ctx.fp_in
      let ctx1 := { ctx with fp_in := r.2, pos := ctx.pos + r.1 }
      if r.1 = 0 then
        ((if r.2.eofFlag then SQUASH_END_OF_STREAM else SQUASH_IO_ERROR), 0, ctx1)
      else
        (SQUASH_OK, r.1, ctx1)
  else
    let requested := data_length
    let r := c_fread requested ctx.fp_in
    let ctx1 := { ctx with fp_in := r.2, pos := ctx.pos + r.1 }
    if r.1 = 0 then
      ((if r.2.eofFlag then SQUASH_END_OF_STREAM else SQUASH_IO_ERROR), 0, ctx1)
    else
      (SQUASH_OK, r.1, ctx1)

/-- `squash_file_splice_write` (lines 411-421): `fwrite` everything,
report `OK` on a complete write and an I/O error otherwise. -/
def squash_file_splice_write (data_length : Nat) (ctx : FileSpliceData) :
    Int × Nat × FileSpliceData :=
  let r := c_fwrite data_length ctx.fp_out
  let ctx1 := { ctx with fp_out := r.2 }
  ((if r.1 = data_length then SQUASH_OK else SQUASH_IO_ERROR), r.1, ctx1)

/-! ## The codec descriptor -/

/-- A codec's incremental stream state (`SquashStream`): the input and
output cursors and the codec-private state.  Buffer pointers (`next_in`,
`next_out`) always designate the two scratch buffers in the loop under
study and are not modelled. -/
structure StreamSt where
  avail_in : Nat
  avail_out : Nat
  total_in : Nat
  total_out : Nat
  priv : Nat
deriving DecidableEq

/-- A codec's native splice implementation (`codec->impl.splice`).  In C
it receives two callback function pointers together with an untyped
`void* user_data`; accordingly it is modelled as working uniformly over
any user-state type.  The `codec` and `options` arguments are opaque to
the splice engine and omitted. -/
structure SpliceImpl where
  run : {σ : Type} → StreamType → ReadFunc σ → WriteFunc σ → σ → Int × σ

/-- The streaming tier of a codec: `process` and `finish` act on the
stream state, `priv0` is the private state installed by
`squash_stream_new_codec_with_options`. -/
structure StreamOps where
  process : StreamSt → Int × StreamSt
  finish : StreamSt → Int × StreamSt
  priv0 : Nat

/-- The codec descriptor as consumed by `splice.c`.  Buffers being
modelled by their lengths, `compress_buffer` and `decompress_buffer` take
the output capacity and the input length and return the status together
with the output length they stored through the in-out size pointer; the
size queries take the relevant input length.  The source consults
`impl.create_stream` at the mmap dispatch (line 476) and
`impl.process_stream` at the stream-loop dispatch (line 581); per the
spec's data model these form one optional streaming tier, modelled by the
single field `stream?`. -/
structure Codec where
  splice? : Option SpliceImpl
  stream? : Option StreamOps
  knows_uncompressed : Bool
  get_max_compressed_size : Nat → Nat
  get_uncompressed_size : Nat → Nat
  compress_buffer : Nat → Nat → Int × Nat
  decompress_buffer : Nat → Nat → Int × Nat

/-- Doubling worker for `squash_npot`: starting from the power `p`,
double until it reaches `n` (the fuel `n` itself always suffices). -/
def squashNpotGo (n : Nat) : Nat → Nat → Nat
  | 0, p => p
  | fuel + 1, p => if n ≤ p then p else squashNpotGo n fuel (p * 2)

/-- Modelled from the spec: `squash_npot` (defined outside `src/`) is the
"next power of two" of its argument, the least power of two that is not
smaller than the input (and `1` at input `0`). -/
def squash_npot (n : Nat) : Nat := squashNpotGo n n 1

/-! ## The byte-budget limiter (lines 496-550) -/

/-- `struct SquashSpliceLimitedData` (line 496). -/
structure LimCtx (σ : Type) where
  write_func : WriteFunc σ
  read_func : ReadFunc σ
  user_data : σ
  stream_type : StreamType
  remaining : Nat
  written : Nat

/-- `squash_splice_custom_limited_write` (lines 505-528): in decompress
direction the offered length is clamped to the budget remainder, a
clamped length of zero yields `END_OF_STREAM` without delegation, and a
non-negative delegated status decrements `remaining` by the bytes the
delegate reported written; `written` accumulates in both directions. -/
def squash_splice_custom_limited_write {σ : Type} (data_length : Nat)
    (ctx : LimCtx σ) : Int × Nat × LimCtx σ :=
  let limit_output := ctx.stream_type = StreamType.decompress
  let dl1 := if limit_output ∧ ctx.remaining < data_length then ctx.remaining
             else data_length
  if limit_output ∧ dl1 = 0 then
    (SQUASH_END_OF_STREAM, dl1, ctx)
  else
    let t := ctx.write_func dl1 ctx.user_data
    if t.1 < 0 then
      (t.1, t.2.1, { ctx with user_data := t.2.2 })
    else
      (t.1, t.2.1,
        { ctx with
            user_data := t.2.2
            remaining := if limit_output then ctx.remaining - t.2.1 else ctx.remaining
            written := ctx.written + t.2.1 })

/-- `squash_splice_custom_limited_read` (lines 530-550): an exhausted
budget yields `END_OF_STREAM` before anything else; in compress direction
the request is clamped to the budget remainder and a positive delegated
status decrements `remaining` by the bytes read. -/
def squash_splice_custom_limited_read {σ : Type} (data_length : Nat)
    (ctx : LimCtx σ) : Int × Nat × LimCtx σ :=
  let limit_input := ctx.stream_type = StreamType.compress
  if ctx.remaining = 0 then
    (SQUASH_END_OF_STREAM, 0, ctx)
  else
    let dl1 := if limit_input ∧ ctx.remaining < data_length then ctx.remaining
               else data_length
    let t := ctx.read_func dl1 ctx.user_data
    (t.1, t.2.1,
      { ctx with
          user_data := t.2.2
          remaining := if limit_input ∧ 0 < t.1 then ctx.remaining - t.2.1
                       else ctx.remaining })

/-! ## The mapped-file one-shot decompression loop (lines 169-192) -/

/-- The decompression retry loop of `squash_splice_map` (lines 180-191).
`mapInit` abstracts `squash_mapped_file_init` on the output file for a
given capacity; a failed mapping jumps to cleanup and returns the status
of the previous iteration (`prev`, initially `SQUASH_FAILED`).  `decomp`
is `squash_codec_decompress_with_options` as a function of the mapped
output capacity.  A non-`OK` status doubles the capacity, and the loop
repeats exactly while the codec does not know the uncompressed size and
the status is `BUFFER_FULL`. -/
def spliceMapDecompLoop (mapInit : Nat → Bool) (decomp : Nat → Int)
    (knows : Bool) : Nat → Nat → Int → Option Int
  | 0, _, _ => none
  | fuel + 1, maxOut, prev =>
    if mapInit maxOut = false then some prev
    else
      let res := decomp maxOut
      if knows = false ∧ res = SQUASH_BUFFER_FULL then
        spliceMapDecompLoop mapInit decomp knows fuel (maxOut <<< 1) res
      else some res

/-- The decompression branch of `squash_splice_map` (lines 169-192): the
initial output capacity is the codec-reported uncompressed size for a
knowing codec and `squash_npot (input length) <<< 3` otherwise, and the
retry loop starts from the sentinel status `SQUASH_FAILED`. -/
def squash_splice_map_decompress (mapInit : Nat → Bool) (codec : Codec)
    (in_len : Nat) (fuel : Nat) : Option Int :=
  let max0 := if codec.knows_uncompressed then codec.get_uncompressed_size in_len
              else squash_npot in_len <<< 3
  spliceMapDecompLoop mapInit (fun cap => (codec.decompress_buffer cap in_len).1)
    codec.knows_uncompressed fuel max0 SQUASH_FAILED

/-! ## The stream-loop path (lines 581-652) -/

/-- The tight write-drain loop of the stream path (lines 634-642): offer
the undelivered count to the user write callback, retry with the
remainder after a short write, and stop early when the callback reports a
negative status.  The source inspects that negative status (`res2`) only
to leave the drain loop and then discards it, so the drain returns only
the updated user state.  The callers pass fuel `write_remaining + 1`,
which covers every terminating C execution (each retry delivers at least
one byte); a callback that keeps writing zero bytes loops forever in C
and exhausts the fuel here. -/
def drainLoop {σ : Type} (write_cb : WriteFunc σ) : Nat → Nat → σ → Option σ
  | 0, _, _ => none
  | fuel + 1, write_remaining, ud =>
    if write_remaining = 0 then some ud
    else
      let t := write_cb write_remaining ud
      if t.1 < 0 then some t.2.2
      else drainLoop write_cb fuel (write_remaining - t.2.1) t.2.2

/-- The inner loop of the stream path (lines 612-644): reset the output
cursor to the scratch buffer, run `finish` (at end of input) or
`process`, abort on a negative status, compute the produced byte count,
apply the decompression budget clamp (lines 626-632: subtract the
overshoot of `total_out` past `length` from the bytes to drain, force the
status to `OK` and raise `eof`), drain to the write callback, and repeat
while the status is `PROCESSING`. -/
def innerLoop {σ : Type} (process finish : StreamSt → Int × StreamSt)
    (write_cb : WriteFunc σ) (limit_output : Bool) (length : Nat) :
    Nat → StreamSt → Bool → σ → Option (Int × StreamSt × Bool × σ)
  | 0, _, _, _ => none
  | fuel + 1, st, eof, ud =>
    let st1 := { st with avail_out := SQUASH_SPLICE_BUF_SIZE }
    let pr := if eof then finish st1 else process st1
    if pr.1 < 0 then some (pr.1, pr.2, eof, ud)
    else
      let wr0 := SQUASH_SPLICE_BUF_SIZE - pr.2.avail_out
      let ov := limit_output = true ∧ length < pr.2.total_out
      let wr1 := if ov then wr0 - (pr.2.total_out - length) else wr0
      let res1 := if ov then SQUASH_OK else pr.1
      let eof1 := if ov then true else eof
      match drainLoop write_cb (wr1 + 1) wr1 ud with
      | none => none
      | some ud1 =>
        if res1 = SQUASH_PROCESSING then
          innerLoop process finish write_cb limit_output length fuel pr.2 eof1 ud1
        else some (res1, pr.2, eof1, ud1)

/-- The outer loop of the stream path (lines 596-645): request up to the
buffer size (clamped to the compression budget remainder), refill from
the user read callback, abort on a negative read status, raise `eof` on
`END_OF_STREAM`, run the inner loop, and repeat while the status is `OK`
and `eof` has not been raised. -/
def outerLoop {σ : Type} (read_cb : ReadFunc σ) (write_cb : WriteFunc σ)
    (process finish : StreamSt → Int × StreamSt)
    (limit_input limit_output : Bool) (length : Nat) :
    Nat → StreamSt → σ → Option (Int × StreamSt × σ)
  | 0, _, _ => none
  | fuel + 1, st, ud =>
    let req := if limit_input then min (length - st.total_in) SQUASH_SPLICE_BUF_SIZE
               else SQUASH_SPLICE_BUF_SIZE
    let t := read_cb req ud
    let st1 := { st with avail_in := t.2.1 }
    if t.1 < 0 then some (t.1, st1, t.2.2)
    else
      let eof : Bool := t.1 = SQUASH_END_OF_STREAM
      match innerLoop process finish write_cb limit_output length fuel st1 eof t.2.2 with
      | none => none
      | some (res2, st2, eof2, ud2) =>
        if res2 = SQUASH_OK ∧ eof2 = false then
          outerLoop read_cb write_cb process finish limit_input limit_output length
            fuel st2 ud2
        else some (res2, st2, ud2)

/-- The `process_stream` branch of
`squash_splice_custom_codec_with_options` (lines 581-652): budgets limit
the input side when compressing and the output side when decompressing
(lines 561-562), the stream starts with zeroed cursors, and a final
`END_OF_STREAM` status is converted to `OK` (lines 647-648). -/
def spliceCustomStream {σ : Type} (read_cb : ReadFunc σ) (write_cb : WriteFunc σ)
    (process finish : StreamSt → Int × StreamSt) (stream_type : StreamType)
    (length : Nat) (fuel : Nat) (priv0 : Nat) (ud : σ) :
    Option (Int × StreamSt × σ) :=
  let limit_input := stream_type = StreamType.compress ∧ length ≠ 0
  let limit_output := stream_type = StreamType.decompress ∧ length ≠ 0
  match outerLoop read_cb write_cb process finish (decide limit_input)
      (decide limit_output) length fuel ⟨0, 0, 0, 0, priv0⟩ ud with
  | none => none
  | some (res, st, u) =>
    some ((if res = SQUASH_END_OF_STREAM then SQUASH_OK else res), st, u)

/-! ## The one-shot accumulator path (lines 653-754) -/

/-- The unknowing-codec decompression retry loop of the accumulator path
(lines 715-732): try the current capacity, double it on `BUFFER_FULL`,
record the codec-reported output length on `OK`, and stop at the first
status that is not `BUFFER_FULL`.  `decomp` is the codec's
`decompress_buffer` as a function of the capacity, returning the status
and the output length it stored.  Allocation is assumed to succeed (the
`malloc` failure branch returns `SQUASH_MEMORY` and is outside every
claim). -/
def accumDecompLoop (decomp : Nat → Int × Nat) : Nat → Nat → Option (Int × Nat)
  | 0, _ => none
  | fuel + 1, size =>
    let t := decomp size
    if t.1 = SQUASH_BUFFER_FULL then accumDecompLoop decomp fuel (size <<< 1)
    else if t.1 = SQUASH_OK then some (t.1, t.2)
    else some (t.1, size)

/-- The source-drain loop of the accumulator path (lines 660-678): read
into the expandable buffer in requests of the budget remainder
(compressing under a budget) or `SQUASH_SPLICE_BUF_SIZE`, return a
negative read status immediately, and stop once the callback reports
`END_OF_STREAM` or the budget is reached.  Only the buffer length is
tracked; `squash_buffer_set_size` is assumed to succeed. -/
def accumReadLoop {σ : Type} (read_cb : ReadFunc σ) (limit_input : Bool)
    (length : Nat) : Nat → Nat → σ → Option (Int × Nat × σ)
  | 0, _, _ => none
  | fuel + 1, old_size, ud =>
    let read_request := if limit_input then length - old_size
                        else SQUASH_SPLICE_BUF_SIZE
    let t := read_cb read_request ud
    if t.1 < 0 then some (t.1, old_size, t.2.2)
    else
      let blen := old_size + t.2.1
      if t.1 = SQUASH_END_OF_STREAM ∨ (limit_input = true ∧ blen = length) then
        some (t.1, blen, t.2.2)
      else accumReadLoop read_cb limit_input length fuel blen t.2.2

/-- The sink-drain loop of the accumulator path (lines 741-748): a
do-while that offers the undelivered remainder to the user write
callback, stops with the callback's status as the overall result when it
is not `OK`, and otherwise repeats until everything is delivered.  The
body runs at least once even for an empty output. -/
def accumDrainLoop {σ : Type} (write_cb : WriteFunc σ) (out_data_size : Nat) :
    Nat → Nat → σ → Option (Int × σ)
  | 0, _, _ => none
  | fuel + 1, bytes_written, ud =>
    let t := write_cb (out_data_size - bytes_written) ud
    if t.1 ≠ SQUASH_OK then some (t.1, t.2.2)
    else
      let bw := bytes_written + t.2.1
      if bw = out_data_size then some (t.1, t.2.2)
      else accumDrainLoop write_cb out_data_size fuel bw t.2.2

/-- The sink-drain phase (lines 736-749): truncate the output to the
budget when decompressing under one, then run the do-while drain with
fuel covering every terminating C execution. -/
def accumWriteDrain {σ : Type} (write_cb : WriteFunc σ) (limit_output : Bool)
    (length : Nat) (out_data_size0 : Nat) (ud : σ) : Option (Int × σ) :=
  let odsz := if limit_output = true ∧ length < out_data_size0 then length
              else out_data_size0
  accumDrainLoop write_cb odsz (odsz + 1) 0 ud

/-- The one-shot accumulator branch of
`squash_splice_custom_codec_with_options` (lines 653-754): drain the
source into the buffer, transform it, and drain the result to the sink.
Compression aborts on a non-`OK` transform status; the knowing-codec
decompression branch rejects a reported uncompressed size of zero with
`SQUASH_INVALID_BUFFER` but otherwise performs a single
`decompress_buffer` call whose status the source never checks before the
sink drain overwrites it, and the unknowing branch runs the doubling
retry loop.  `malloc` is assumed to succeed throughout. -/
def spliceCustomAccum {σ : Type} (codec : Codec) (stream_type : StreamType)
    (write_cb : WriteFunc σ) (read_cb : ReadFunc σ) (ud : σ) (length : Nat)
    (fuel : Nat) : Option (Int × σ) :=
  let limit_input := decide (stream_type = StreamType.compress ∧ length ≠ 0)
  let limit_output := decide (stream_type = StreamType.decompress ∧ length ≠ 0)
  match accumReadLoop read_cb limit_input length fuel 0 ud with
  | none => none
  | some (res, blen, ud1) =>
    if res < 0 then some (res, ud1)
    else
      if stream_type = StreamType.compress then
        let cap := codec.get_max_compressed_size blen
        let t := codec.compress_buffer cap blen
        if t.1 ≠ SQUASH_OK then some (t.1, ud1)
        else accumWriteDrain write_cb limit_output length t.2 ud1
      else
        if codec.knows_uncompressed then
          let sz := codec.get_uncompressed_size blen
          if sz = 0 then some (SQUASH_INVALID_BUFFER, ud1)
          else
            let t := codec.decompress_buffer sz blen
            accumWriteDrain write_cb limit_output length t.2 ud1
        else
          match accumDecompLoop (fun cap => codec.decompress_buffer cap blen) fuel
              (squash_npot blen <<< 3) with
          | none => none
          | some (_, odsz) => accumWriteDrain write_cb limit_output length odsz ud1

/-! ## The custom splice dispatcher (lines 552-757) -/

/-- `squash_splice_custom_codec_with_options` (lines 552-757).  The C
function forwards the untyped `user_data` pointer to
`squash_file_splice_read` / `squash_file_splice_write` on the
native-splice path with `length = 0` (line 566), which is type-correct
only when the caller's user data is the file-splice context, so the
embedding fixes the caller's user-state type to `FileSpliceData`.  With a
nonzero budget the native splice receives the byte-budget limiter
wrappers closed over the caller's callbacks (lines 567-580); without a
native splice the streaming tier runs the stream loop and otherwise the
one-shot accumulator runs, both over the caller's callbacks. -/
def squash_splice_custom_codec_with_options (codec : Codec)
    (stream_type : StreamType) (write_cb : WriteFunc FileSpliceData)
    (read_cb : ReadFunc FileSpliceData) (user_data : FileSpliceData)
    (length : Nat) (fuel : Nat) : Option (Int × FileSpliceData) :=
  match codec.splice? with
  | some sp =>
    if length = 0 then
      some (sp.run stream_type squash_file_splice_read squash_file_splice_write
        user_data)
    else
      let ctx : LimCtx FileSpliceData :=
        ⟨write_cb, read_cb, user_data, stream_type, length, 0⟩
      let r := sp.run stream_type squash_splice_custom_limited_read
        squash_splice_custom_limited_write ctx
      some (r.1, r.2.user_data)
  | none =>
    match codec.stream? with
    | some ops =>
      (spliceCustomStream read_cb write_cb ops.process ops.finish stream_type
          length fuel ops.priv0 user_data).map (fun r => (r.1, r.2.2))
    | none =>
      spliceCustomAccum codec stream_type write_cb read_cb user_data length fuel

/-! ## Process-wide state: mmap preference and page size -/

/-- `squash_splice_detect_enable` (lines 354-366): translate the value of
the `SQUASH_MAP_SPLICE` environment variable into the `try_mmap` setting,
where `1` means never mmap, `2` the default, and `3` always prefer mmap;
`none` models an unset variable. -/
def squash_splice_detect_enable (ev : Option String) : Nat :=
  match ev with
  | none => 2
  | some s =>
    if s = "yes" then 2
    else if s = "always" then 3
    else if s = "no" then 1
    else 2

/-- The C11 `call_once` guard (line 468 together with the `once_flag` at
line 351), modelled as explicit state: `none` is the untriggered flag;
once the initializer has run, its value is cached and every later call
returns the cached value without running its initializer. -/
def call_once (flag : Option Nat) (init : Unit → Nat) : Nat × Option Nat :=
  match flag with
  | some v => (v, some v)
  | none =>
    let v := init ()
    (v, some v)

/-- The mmap-path condition of `squash_splice_codec_with_options`
(line 476): attempt the mapped one-shot path when the setting is `3`, or
when it is `2` and the codec has no streaming tier. -/
def squash_splice_uses_mmap (try_mmap : Nat) (codec : Codec) : Bool :=
  decide (try_mmap = 3) || (decide (try_mmap = 2) && codec.stream?.isNone)

/-- `squash_get_page_size` (`util.c` lines 38-56), in the `_SC_PAGESIZE`
configuration compiled on this platform: `sysconf_ps` is the value
`sysconf (_SC_PAGESIZE)` reports (an error is `-1`), `cache` the function
static `page_size` (zero until initialized).  Returns the page size and
the updated cache. -/
def squash_get_page_size (sysconf_ps : Int) (cache : Nat) : Nat × Nat :=
  if cache = 0 then
    let v := if sysconf_ps = -1 then 8192 else sysconf_ps.toNat
    (v, v)
  else (cache, cache)

/-! ## Name-based entry points (lines 65-82 and 136-147)

The codec registry (`squash_get_codec`) and the options parser
(`squash_options_newv`) live outside `src/` and are taken as parameters,
as is `squash_splice_codec_with_options`, whose body depends on the
non-`src` mapped-file utilities; the wrappers below embed exactly the
argument checking and delegation that `splice.c` performs.  The two
`FILE*` endpoints are abstracted into one state value of type `σ`. -/

/-- `squash_splice` (lines 65-82): resolve the codec name, return
`SQUASH_BAD_PARAM` without touching anything else when it is unknown, and
otherwise build the options from the varargs and delegate. -/
def squash_splice {σ Opt : Type} (get_codec : String → Option Codec)
    (splice_codec_with_options : Codec → StreamType → σ → Nat → Opt → Int × σ)
    (options_newv : Codec → Opt) (codec : String) (stream_type : StreamType)
    (files : σ) (length : Nat) : Int × σ :=
  match get_codec codec with
  | none => (SQUASH_BAD_PARAM, files)
  | some c => splice_codec_with_options c stream_type files length (options_newv c)

/-- `squash_splice_with_options` (lines 136-147): resolve the codec name,
return `SQUASH_BAD_PARAM` without touching anything else when it is
unknown, and otherwise delegate with the caller's options. -/
def squash_splice_with_options {σ Opt : Type} (get_codec : String → Option Codec)
    (splice_codec_with_options : Codec → StreamType → σ → Nat → Opt → Int × σ)
    (codec : String) (stream_type : StreamType) (files : σ) (length : Nat)
    (options : Opt) : Int × σ :=
  match get_codec codec with
  | none => (SQUASH_BAD_PARAM, files)
  | some c => splice_codec_with_options c stream_type files length options

/-! ## Concrete instances used by the counterexamples and witnesses -/

/-- A codec without the knows-uncompressed-size capability whose
`decompress_buffer` reports `BUFFER_FULL` below a capacity of 64 bytes
and succeeds with 60 output bytes from there on. -/
def c1UnknowingCodec : Codec :=
  ⟨none, none, false, id, id, fun _ _ => (SQUASH_OK, 0),
    fun cap _ => if 64 ≤ cap then (SQUASH_OK, 60) else (SQUASH_BUFFER_FULL, 0)⟩

/-- A codec with the knows-uncompressed-size capability that reports an
uncompressed size of 100 bytes but whose `decompress_buffer` always
reports `BUFFER_FULL`. -/
def c1KnowingCodec : Codec :=
  ⟨none, none, true, id, fun _ => 100, fun _ _ => (SQUASH_OK, 0),
    fun _ _ => (SQUASH_BUFFER_FULL, 0)⟩

/-- A one-shot `decompress_buffer` abstraction that reports `BUFFER_FULL`
below a capacity of 64 bytes and succeeds with 60 output bytes from there
on. -/
def c5Decomp : Nat → Int × Nat :=
  fun cap => if 64 ≤ cap then (SQUASH_OK, 60) else (SQUASH_BUFFER_FULL, 0)

/-- A native splice implementation that returns `OK` without touching its
callbacks or its user data. -/
def sp0 : SpliceImpl := ⟨fun _ _ _ s => (SQUASH_OK, s)⟩

/-- A codec exposing only the native splice `sp0`. -/
def c2Codec : Codec :=
  ⟨some sp0, none, false, id, id, fun _ _ => (SQUASH_OK, 0),
    fun _ _ => (SQUASH_OK, 0)⟩

/-- A file-splice context over empty files. -/
def ud0 : FileSpliceData := ⟨⟨0, false⟩, ⟨0, 0⟩, 0, 0, StreamType.compress⟩

/-- A callback that accepts everything with `OK`. -/
def cbA : ReadFunc FileSpliceData := fun n s => (SQUASH_OK, n, s)

/-- A callback that always reports `SQUASH_FAILED`. -/
def cbB : ReadFunc FileSpliceData := fun _ s => (SQUASH_FAILED, 0, s)

/-- A limiter context in decompress direction with an exhausted budget
(`remaining = 0`), over a user read callback that would report `OK` with
the full requested length and bump its state. -/
def c3Ctx : LimCtx Nat :=
  ⟨fun n s => (SQUASH_OK, n, s), fun n s => (SQUASH_OK, n, s + 1), 0,
    StreamType.decompress, 0, 0⟩

/-- A limiter context in decompress direction with budget remainder 5. -/
def c3CtxB : LimCtx Nat :=
  ⟨fun n s => (SQUASH_OK, n, s + n), fun n s => (SQUASH_OK, n, s + 1), 0,
    StreamType.decompress, 5, 0⟩

/-- A limiter context in compress direction with budget remainder 5. -/
def c3CtxC : LimCtx Nat :=
  ⟨fun n s => (SQUASH_OK, n, s + n), fun n s => (SQUASH_OK, n, s + 1), 0,
    StreamType.compress, 5, 0⟩

/-- A read callback over a pair of invocation counters (reads performed,
writes attempted): the first call supplies the full request with `OK`,
every later call reports `END_OF_STREAM` with no bytes. -/
def c4Read : ReadFunc (Nat × Nat) :=
  fun req s =>
    if s.1 = 0 then (SQUASH_OK, req, (1, s.2))
    else (SQUASH_END_OF_STREAM, 0, (s.1 + 1, s.2))

/-- A write callback that always fails with the I/O error status, counting
its invocations in the second counter. -/
def c4Write : WriteFunc (Nat × Nat) :=
  fun _ s => (SQUASH_IO_ERROR, 0, (s.1, s.2 + 1))

/-- A `process` that consumes all available input and produces 10 output
bytes with status `OK`. -/
def c4Process : StreamSt → Int × StreamSt :=
  fun st =>
    (SQUASH_OK, ⟨0, st.avail_out - 10, st.total_in + st.avail_in,
      st.total_out + 10, st.priv⟩)

/-- A `finish` that immediately reports `END_OF_STREAM` producing
nothing. -/
def c4Finish : StreamSt → Int × StreamSt := fun st => (SQUASH_END_OF_STREAM, st)

/-- A write callback over a delivered-bytes counter: accepts everything
with `OK` and adds the delivered length to the counter. -/
def countWrite : WriteFunc Nat := fun n s => (SQUASH_OK, n, s + n)

/-- A `process` that produces 4 output bytes with status `OK`. -/
def c6Process : StreamSt → Int × StreamSt :=
  fun st =>
    (SQUASH_OK, ⟨st.avail_in, st.avail_out - 4, st.total_in, st.total_out + 4,
      st.priv⟩)

/-- A `finish` that returns `OK` producing nothing. -/
def c6Finish : StreamSt → Int × StreamSt := fun st => (SQUASH_OK, st)

/-- A stream state that has already emitted 3 bytes. -/
def c6St : StreamSt := ⟨0, 0, 0, 3, 0⟩

/-- A limiter context in decompress direction with budget remainder 3,
over a counting write callback. -/
def c7Ctx : LimCtx Nat :=
  ⟨countWrite, fun n s => (SQUASH_OK, n, s), 0, StreamType.decompress, 3, 0⟩

/-- A limiter context in decompress direction with an exhausted budget,
over a counting write callback. -/
def c7CtxZ : LimCtx Nat :=
  ⟨countWrite, fun n s => (SQUASH_OK, n, s), 0, StreamType.decompress, 0, 0⟩

/-- A downstream splice that would bump the file state if it were ever
invoked. -/
def scwo0 : Codec → StreamType → Nat → Nat → Unit → Int × Nat :=
  fun _ _ s _ _ => (SQUASH_OK, s + 1)

/-- A trivial options builder. -/
def onewv0 : Codec → Unit := fun _ => ()

/-! ## Helper lemmas -/

/-- One unfolding of the mapped decompression retry loop when the output
mapping succeeds. -/
lemma spliceMapDecompLoop_succ (mapInit : Nat → Bool) (decomp : Nat → Int)
    (knows : Bool) (fuel maxOut : Nat) (prev : Int)
    (hmap : mapInit maxOut = true) :
    spliceMapDecompLoop mapInit decomp knows (fuel + 1) maxOut prev =
      if knows = false ∧ decomp maxOut = SQUASH_BUFFER_FULL then
        spliceMapDecompLoop mapInit decomp knows fuel (maxOut <<< 1)
          (decomp maxOut)
      else some (decomp maxOut) := by
  rw [spliceMapDecompLoop, hmap]
  simp

/-- One unfolding of the accumulator decompression retry loop. -/
lemma accumDecompLoop_succ (decomp : Nat → Int × Nat) (fuel size : Nat) :
    accumDecompLoop decomp (fuel + 1) size =
      if (decomp size).1 = SQUASH_BUFFER_FULL then
        accumDecompLoop decomp fuel (size <<< 1)
      else if (decomp size).1 = SQUASH_OK then
        some ((decomp size).1, (decomp size).2)
      else some ((decomp size).1, size) := by
  rw [accumDecompLoop]

/-- When every output mapping succeeds, the unknowing-codec mapped retry
loop can only exit with the status of its final `decompress_buffer`
attempt, which by the loop guard is never `BUFFER_FULL`. -/
lemma spliceMapDecompLoop_no_bufferFull (mapInit : Nat → Bool)
    (decomp : Nat → Int) (hmap : ∀ n, mapInit n = true) :
    ∀ (fuel maxOut : Nat) (prev s : Int),
      spliceMapDecompLoop mapInit decomp false fuel maxOut prev = some s →
      s ≠ SQUASH_BUFFER_FULL := by
  intro fuel
  induction fuel with
  | zero => intro maxOut prev s h; simp [spliceMapDecompLoop] at h
  | succ n ih =>
    intro maxOut prev s h
    rw [spliceMapDecompLoop_succ mapInit decomp false n maxOut prev
      (hmap maxOut)] at h
    split at h
    · exact ih _ _ _ h
    · rename_i hcond
      rw [Option.some.injEq] at h
      intro hs
      exact hcond ⟨rfl, by rw [h, hs]⟩

/-- The accumulator decompression retry loop can only exit with a status
that is not `BUFFER_FULL`. -/
lemma accumDecompLoop_no_bufferFull (decomp : Nat → Int × Nat) :
    ∀ (fuel size : Nat) (s : Int) (c : Nat),
      accumDecompLoop decomp fuel size = some (s, c) →
      s ≠ SQUASH_BUFFER_FULL := by
  intro fuel
  induction fuel with
  | zero => intro size s c h; simp [accumDecompLoop] at h
  | succ n ih =>
    intro size s c h
    rw [accumDecompLoop_succ] at h
    split at h
    · exact ih _ _ _ h
    · rename_i hbf
      split at h <;>
        (rw [Option.some.injEq, Prod.mk.injEq] at h
         intro hs
         exact hbf (by rw [h.1, hs]))

/-- The unknowing-codec mapped retry loop tries the seed capacity first,
doubles it on every `BUFFER_FULL`, and returns the first status that is
not `BUFFER_FULL`. -/
lemma spliceMapDecompLoop_firstExit (mapInit : Nat → Bool) (decomp : Nat → Int)
    (hmap : ∀ n, mapInit n = true) :
    ∀ (k fuel size : Nat) (prev : Int),
      (∀ i, i < k → decomp (size * 2 ^ i) = SQUASH_BUFFER_FULL) →
      decomp (size * 2 ^ k) ≠ SQUASH_BUFFER_FULL →
      k < fuel →
      spliceMapDecompLoop mapInit decomp false fuel size prev
        = some (decomp (size * 2 ^ k)) := by
  intro k
  induction k with
  | zero =>
    intro fuel size prev hbf hk hf
    obtain ⟨f, rfl⟩ : ∃ f, fuel = f + 1 := ⟨fuel - 1, by omega⟩
    rw [pow_zero, Nat.mul_one] at hk
    rw [spliceMapDecompLoop_succ mapInit decomp false f size prev (hmap size),
      if_neg (fun hc => hk hc.2), pow_zero, Nat.mul_one]
  | succ k ih =>
    intro fuel size prev hbf hk hf
    obtain ⟨f, rfl⟩ : ∃ f, fuel = f + 1 := ⟨fuel - 1, by omega⟩
    have hsz : ∀ i : Nat, (size <<< 1) * 2 ^ i = size * 2 ^ (i + 1) := by
      intro i; rw [Nat.shiftLeft_eq]; ring
    have h0 : decomp size = SQUASH_BUFFER_FULL := by
      have h0 := hbf 0 (Nat.succ_pos k)
      rwa [pow_zero, Nat.mul_one] at h0
    rw [spliceMapDecompLoop_succ mapInit decomp false f size prev (hmap size),
      if_pos ⟨rfl, h0⟩,
      show size * 2 ^ (k + 1) = (size <<< 1) * 2 ^ k from (hsz k).symm]
    exact ih f (size <<< 1) (decomp size)
      (fun i hi => by rw [hsz i]; exact hbf (i + 1) (by omega))
      (by rw [hsz k]; exact hk) (by omega)

/-- The accumulator retry loop tries the seed capacity first, doubles it
on every `BUFFER_FULL`, and returns the first status that is not
`BUFFER_FULL`. -/
lemma accumDecompLoop_firstExit (decomp : Nat → Int × Nat) :
    ∀ (k fuel size : Nat),
      (∀ i, i < k → (decomp (size * 2 ^ i)).1 = SQUASH_BUFFER_FULL) →
      (decomp (size * 2 ^ k)).1 ≠ SQUASH_BUFFER_FULL →
      k < fuel →
      (accumDecompLoop decomp fuel size).map Prod.fst
        = some ((decomp (size * 2 ^ k)).1) := by
  intro k
  induction k with
  | zero =>
    intro fuel size hbf hk hf
    obtain ⟨f, rfl⟩ : ∃ f, fuel = f + 1 := ⟨fuel - 1, by omega⟩
    rw [pow_zero, Nat.mul_one] at hk
    rw [accumDecompLoop_succ, if_neg hk, pow_zero, Nat.mul_one]
    by_cases hok : (decomp size).1 = SQUASH_OK
    · rw [if_pos hok]; rfl
    · rw [if_neg hok]; rfl
  | succ k ih =>
    intro fuel size hbf hk hf
    obtain ⟨f, rfl⟩ : ∃ f, fuel = f + 1 := ⟨fuel - 1, by omega⟩
    have hsz : ∀ i : Nat, (size <<< 1) * 2 ^ i = size * 2 ^ (i + 1) := by
      intro i; rw [Nat.shiftLeft_eq]; ring
    have h0 : (decomp size).1 = SQUASH_BUFFER_FULL := by
      have h0 := hbf 0 (Nat.succ_pos k)
      rwa [pow_zero, Nat.mul_one] at h0
    rw [accumDecompLoop_succ, if_pos h0,
      show size * 2 ^ (k + 1) = (size <<< 1) * 2 ^ k from (hsz k).symm]
    exact ih f (size <<< 1)
      (fun i hi => by rw [hsz i]; exact hbf (i + 1) (by omega))
      (by rw [hsz k]; exact hk) (by omega)

/-- Draining through the counting write callback delivers all offered
bytes in a single call and adds them to the counter. -/
lemma drainLoop_countWrite (n s : Nat) :
    drainLoop countWrite (n + 1) n s = some (s + n) := by
  cases n with
  | zero => simp [drainLoop]
  | succ m => simp [drainLoop, countWrite, SQUASH_OK]

/-! ## Claim theorems -/

/-- C1 (amended): for a codec without the knows-uncompressed-size
capability, a `BUFFER_FULL` from `decompress_buffer` is resolved
internally by doubling the output capacity and retrying, both in the
mapped one-shot path (as long as the output mappings succeed; a failed
mapping aborts with the previous status) and in the one-shot accumulator
path: neither retry loop ever exits with `BUFFER_FULL`.  For a codec with
the capability no such retry occurs — see the counterexample, where the
mapped path itself returns `BUFFER_FULL` (the dispatcher then falls back
to the stream path). -/
theorem c1_buffer_full_never_escapes_unknowing :
    (∀ (mapInit : Nat → Bool) (codec : Codec) (in_len fuel : Nat) (s : Int),
      codec.knows_uncompressed = false →
      (∀ n, mapInit n = true) →
      squash_splice_map_decompress mapInit codec in_len fuel = some s →
      s ≠ SQUASH_BUFFER_FULL)
  ∧ (∀ (decomp : Nat → Int × Nat) (fuel size : Nat) (s : Int) (c : Nat),
      accumDecompLoop decomp fuel size = some (s, c) →
      s ≠ SQUASH_BUFFER_FULL) := by
  constructor
  · intro mapInit codec in_len fuel s hknows hmap h
    unfold squash_splice_map_decompress at h
    rw [hknows] at h
    simp only [Bool.false_eq_true, if_false] at h
    exact spliceMapDecompLoop_no_bufferFull mapInit _ hmap _ _ _ _ h
  · exact fun decomp fuel size s c h =>
      accumDecompLoop_no_bufferFull decomp fuel size s c h

/-- C1 counterexample: with a codec that has the knows-uncompressed-size
capability and whose `decompress_buffer` reports `BUFFER_FULL`, the
mapped one-shot path performs a single attempt and returns `BUFFER_FULL`
itself — it neither enlarges the output buffer nor retries (one unit of
loop fuel suffices, and more fuel changes nothing).  This refutes the
claim's "including when the codec has the knows-uncompressed-size
capability". -/
theorem c1_counterexample_knowing_codec :
    squash_splice_map_decompress (fun _ => true) c1KnowingCodec 5 1
        = some SQUASH_BUFFER_FULL
      ∧ squash_splice_map_decompress (fun _ => true) c1KnowingCodec 5 50
        = some SQUASH_BUFFER_FULL := by
  exact ⟨by decide, by decide⟩

/-- Witness for C1: a concrete unknowing codec that needs three doublings
is driven to success, and the theorem yields that the exit status is not
`BUFFER_FULL`. -/
theorem c1_buffer_full_never_escapes_unknowing_witness :
    squash_splice_map_decompress (fun _ => true) c1UnknowingCodec 1 10
        = some SQUASH_OK
      ∧ accumDecompLoop c5Decomp 10 8 = some (SQUASH_OK, 60)
      ∧ SQUASH_OK ≠ SQUASH_BUFFER_FULL := by
  refine ⟨by decide, by decide, ?_⟩
  exact c1_buffer_full_never_escapes_unknowing.1 (fun _ => true) c1UnknowingCodec
    1 10 SQUASH_OK rfl (fun _ => rfl) (by decide)

/-- C5: when decompressing an input of `n` bytes with a codec that cannot
report the uncompressed size, both the mapped one-shot path and the
accumulator path first attempt an output capacity of exactly
`squash_npot n <<< 3` bytes, double the capacity on each `BUFFER_FULL`
result, and stop at the first non-`BUFFER_FULL` result, whose status they
return (in the mapped path, provided the output mappings succeed). -/
theorem c5_seed_and_double_on_buffer_full :
    (∀ (mapInit : Nat → Bool) (codec : Codec) (n k fuel : Nat),
      codec.knows_uncompressed = false →
      (∀ m, mapInit m = true) →
      (∀ i, i < k →
        (codec.decompress_buffer ((squash_npot n <<< 3) * 2 ^ i) n).1
          = SQUASH_BUFFER_FULL) →
      (codec.decompress_buffer ((squash_npot n <<< 3) * 2 ^ k) n).1
          ≠ SQUASH_BUFFER_FULL →
      k < fuel →
      squash_splice_map_decompress mapInit codec n fuel
        = some ((codec.decompress_buffer ((squash_npot n <<< 3) * 2 ^ k) n).1))
  ∧ (∀ (decomp : Nat → Int × Nat) (n k fuel : Nat),
      (∀ i, i < k →
        (decomp ((squash_npot n <<< 3) * 2 ^ i)).1 = SQUASH_BUFFER_FULL) →
      (decomp ((squash_npot n <<< 3) * 2 ^ k)).1 ≠ SQUASH_BUFFER_FULL →
      k < fuel →
      (accumDecompLoop decomp fuel (squash_npot n <<< 3)).map Prod.fst
        = some ((decomp ((squash_npot n <<< 3) * 2 ^ k)).1)) := by
  constructor
  · intro mapInit codec n k fuel hknows hmap hbf hk hf
    unfold squash_splice_map_decompress
    rw [hknows]
    simp only [Bool.false_eq_true, if_false]
    exact spliceMapDecompLoop_firstExit mapInit _ hmap k fuel _ SQUASH_FAILED
      hbf hk hf
  · intro decomp n k fuel hbf hk hf
    exact accumDecompLoop_firstExit decomp k fuel _ hbf hk hf

/-- Witness for C5: input length 1 seeds both loops at capacity 8; a codec
succeeding only from capacity 64 forces exactly three doublings
(8, 16, 32 all report `BUFFER_FULL`) before the status of the attempt at
64 is returned. -/
theorem c5_seed_and_double_on_buffer_full_witness :
    squash_splice_map_decompress (fun _ => true) c1UnknowingCodec 1 10
        = some ((c1UnknowingCodec.decompress_buffer 64 1).1)
      ∧ (accumDecompLoop c5Decomp 10 (squash_npot 1 <<< 3)).map Prod.fst
        = some ((c5Decomp 64).1) := by
  constructor
  · have h := c5_seed_and_double_on_buffer_full.1 (fun _ => true) c1UnknowingCodec
      1 3 10 rfl (fun _ => rfl) (by decide) (by decide) (by decide)
    rw [h]
    decide
  · have h := c5_seed_and_double_on_buffer_full.2 c5Decomp 1 3 10
      (by decide) (by decide) (by decide)
    rw [h]
    decide

/-- C8: the mmap preference is derived from `SQUASH_MAP_SPLICE` exactly
once per process through the one-time guard — `no` maps to never-mmap
(1), `always` to prefer-mmap (3), and `yes`, unset, or any other value to
the default (2), the mode in which the mapped path is attempted exactly
when the codec has no streaming tier; once the guard has run, later calls
return the cached value without re-running any initializer. -/
theorem c8_map_splice_env_once :
    squash_splice_detect_enable none = 2
  ∧ squash_splice_detect_enable (some "yes") = 2
  ∧ squash_splice_detect_enable (some "always") = 3
  ∧ squash_splice_detect_enable (some "no") = 1
  ∧ (∀ s : String, s ≠ "yes" → s ≠ "always" → s ≠ "no" →
      squash_splice_detect_enable (some s) = 2)
  ∧ (∀ init : Unit → Nat, call_once none init = (init (), some (init ())))
  ∧ (∀ (v : Nat) (init : Unit → Nat), call_once (some v) init = (v, some v))
  ∧ (∀ c : Codec, squash_splice_uses_mmap 1 c = false)
  ∧ (∀ c : Codec, squash_splice_uses_mmap 2 c = c.stream?.isNone)
  ∧ (∀ c : Codec, squash_splice_uses_mmap 3 c = true) := by
  refine ⟨rfl, rfl, rfl, rfl, ?_, fun _ => rfl, fun _ _ => rfl, fun _ => rfl,
    ?_, fun _ => rfl⟩
  · intro s h1 h2 h3
    simp [squash_splice_detect_enable, h1, h2, h3]
  · intro c
    simp [squash_splice_uses_mmap]

/-- Witness for C8: an unrecognized value maps to the default mode, and a
second call through the guard returns the cached value even under a
different initializer. -/
theorem c8_map_splice_env_once_witness :
    squash_splice_detect_enable (some "maybe") = 2
  ∧ call_once (some 3) (fun _ => 9) = (3, some 3) :=
  ⟨c8_map_splice_env_once.2.2.2.2.1 "maybe" (by decide) (by decide) (by decide),
    c8_map_splice_env_once.2.2.2.2.2.2.1 3 (fun _ => 9)⟩

/-- C9: the name-based entry points return `SQUASH_BAD_PARAM` when the
codec name does not resolve, and in that case the downstream splice is
never invoked and the file state is returned unchanged (the conclusion
holds for every downstream function and every file state). -/
theorem c9_unknown_codec_bad_param :
    ∀ {σ Opt : Type} (get_codec : String → Option Codec)
      (scwo : Codec → StreamType → σ → Nat → Opt → Int × σ)
      (onewv : Codec → Opt) (name : String) (stream_type : StreamType)
      (files : σ) (length : Nat) (opts : Opt),
      get_codec name = none →
      squash_splice get_codec scwo onewv name stream_type files length
          = (SQUASH_BAD_PARAM, files)
        ∧ squash_splice_with_options get_codec scwo name stream_type files
            length opts = (SQUASH_BAD_PARAM, files) := by
  intro σ Opt gc scwo onewv name stream_type files length opts h
  constructor
  · unfold squash_splice
    rw [h]
  · unfold squash_splice_with_options
    rw [h]

/-- Witness for C9: an empty registry rejects the name `nope` with
`SQUASH_BAD_PARAM`, leaving the file state 7 untouched even though the
supplied downstream would have bumped it. -/
theorem c9_unknown_codec_bad_param_witness :
    squash_splice (fun _ => none) scwo0 onewv0 "nope" StreamType.compress 7 0
        = (SQUASH_BAD_PARAM, 7)
      ∧ squash_splice_with_options (fun _ => none) scwo0 "nope"
          StreamType.compress 7 0 () = (SQUASH_BAD_PARAM, 7) :=
  c9_unknown_codec_bad_param (fun _ => none) scwo0 onewv0 "nope"
    StreamType.compress 7 0 () rfl

/-- C10: under the POSIX contract for `sysconf (_SC_PAGESIZE)` (either an
error, reported as -1, or a positive page size), `squash_get_page_size`
returns a nonzero value, and a second call starting from the cache left
by the first returns the same value and the same cache. -/
theorem c10_page_size_nonzero_idempotent (sysconf_ps : Int)
    (h : sysconf_ps = -1 ∨ 0 < sysconf_ps) :
    (squash_get_page_size sysconf_ps 0).1 ≠ 0
  ∧ squash_get_page_size sysconf_ps (squash_get_page_size sysconf_ps 0).2
      = squash_get_page_size sysconf_ps 0 := by
  have hv : (if sysconf_ps = -1 then (8192 : Nat) else sysconf_ps.toNat) ≠ 0 := by
    rcases h with h | h
    · simp [h]
    · rw [if_neg (by omega)]
      omega
  constructor
  · simpa [squash_get_page_size] using hv
  · simp [squash_get_page_size, hv]

/-- Witness for C10: a page size of 4096 is cached and returned unchanged
by the second call. -/
theorem c10_page_size_nonzero_idempotent_witness :
    (squash_get_page_size 4096 0).1 ≠ 0
  ∧ squash_get_page_size 4096 (squash_get_page_size 4096 0).2
      = squash_get_page_size 4096 0 :=
  c10_page_size_nonzero_idempotent 4096 (Or.inr (by decide))

/-- C2: when the codec exposes a native splice implementation and the
byte budget is zero, the dispatcher invokes that implementation with the
internal file-splice callbacks `squash_file_splice_read` and
`squash_file_splice_write` and the caller's user data; the caller's
`write_cb` and `read_cb` arguments are never consulted on this path — the
result is the same for any two choices of them (and of the fuel, which
this path does not consume). -/
theorem c2_native_splice_zero_length_file_callbacks :
    ∀ (codec : Codec) (sp : SpliceImpl) (stream_type : StreamType)
      (w r w2 r2 : Nat → FileSpliceData → Int × Nat × FileSpliceData)
      (ud : FileSpliceData) (fuel fuel2 : Nat),
      codec.splice? = some sp →
      squash_splice_custom_codec_with_options codec stream_type w r ud 0 fuel
          = some (sp.run stream_type squash_file_splice_read
              squash_file_splice_write ud)
        ∧ squash_splice_custom_codec_with_options codec stream_type w r ud 0 fuel
          = squash_splice_custom_codec_with_options codec stream_type w2 r2 ud 0
              fuel2 := by
  intro codec sp stream_type w r w2 r2 ud fuel fuel2 h
  constructor
  · simp [squash_splice_custom_codec_with_options, h]
  · simp [squash_splice_custom_codec_with_options, h]

/-- Witness for C2: a codec whose native splice ignores its callbacks; the
dispatcher hands it the file-splice callbacks, and swapping the caller's
callbacks (and the fuel) does not change the result. -/
theorem c2_native_splice_zero_length_file_callbacks_witness :
    squash_splice_custom_codec_with_options c2Codec StreamType.compress cbA cbA
        ud0 0 5
      = some (sp0.run StreamType.compress squash_file_splice_read
          squash_file_splice_write ud0)
    ∧ squash_splice_custom_codec_with_options c2Codec StreamType.compress cbA
        cbA ud0 0 5
      = squash_splice_custom_codec_with_options c2Codec StreamType.compress cbB
          cbB ud0 0 9 :=
  c2_native_splice_zero_length_file_callbacks c2Codec sp0 StreamType.compress
    cbA cbA cbB cbB ud0 5 9 rfl

/-- C3 (amended): only the side selected by the direction is limited.  The
write wrapper in compress direction delegates verbatim: the user write
callback receives the unclamped length and its status and reported length
are returned unchanged, with `remaining` untouched.  The read wrapper in
decompress direction delegates verbatim in the same sense while
`remaining` is nonzero, but once the output budget is exhausted
(`remaining = 0`) it returns `END_OF_STREAM` with length 0 on its own,
leaving the context unchanged, without invoking the user callback. -/
theorem c3_unlimited_side_passthrough :
    (∀ (σ : Type) (ctx : LimCtx σ) (dl : Nat),
      ctx.stream_type = StreamType.compress →
      (squash_splice_custom_limited_write dl ctx).1
          = (ctx.write_func dl ctx.user_data).1
        ∧ (squash_splice_custom_limited_write dl ctx).2.1
          = (ctx.write_func dl ctx.user_data).2.1
        ∧ (squash_splice_custom_limited_write dl ctx).2.2.remaining
          = ctx.remaining)
  ∧ (∀ (σ : Type) (ctx : LimCtx σ) (dl : Nat),
      ctx.stream_type = StreamType.decompress →
      ctx.remaining ≠ 0 →
      (squash_splice_custom_limited_read dl ctx).1
          = (ctx.read_func dl ctx.user_data).1
        ∧ (squash_splice_custom_limited_read dl ctx).2.1
          = (ctx.read_func dl ctx.user_data).2.1
        ∧ (squash_splice_custom_limited_read dl ctx).2.2.remaining
          = ctx.remaining)
  ∧ (∀ (σ : Type) (ctx : LimCtx σ) (dl : Nat),
      ctx.stream_type = StreamType.decompress →
      ctx.remaining = 0 →
      squash_splice_custom_limited_read dl ctx
        = (SQUASH_END_OF_STREAM, 0, ctx)) := by
  refine ⟨?_, ?_, ?_⟩
  · intro σ ctx dl hst
    rcases hw : ctx.write_func dl ctx.user_data with ⟨res, w, s1⟩
    by_cases hr : res < 0
    · simp [squash_splice_custom_limited_write, hst, hw, hr]
    · simp [squash_splice_custom_limited_write, hst, hw, hr]
  · intro σ ctx dl hst hrem
    rcases hw : ctx.read_func dl ctx.user_data with ⟨res, got, s1⟩
    simp [squash_splice_custom_limited_read, hst, hrem, hw]
  · intro σ ctx dl hst hrem
    simp [squash_splice_custom_limited_read, hrem]

/-- C3 counterexample: in decompress direction — where the read side is
the unlimited one — with the write-side budget exhausted, the read
wrapper returns `END_OF_STREAM` with length 0 on its own instead of
delegating: the user read callback would have returned `OK` with the full
five requested bytes. -/
theorem c3_counterexample_read_eos_on_exhausted_budget :
    (squash_splice_custom_limited_read 5 c3Ctx).1 = SQUASH_END_OF_STREAM
      ∧ (squash_splice_custom_limited_read 5 c3Ctx).2.1 = 0
      ∧ (c3Ctx.read_func 5 c3Ctx.user_data).1 = SQUASH_OK
      ∧ (c3Ctx.read_func 5 c3Ctx.user_data).2.1 = 5 :=
  ⟨by decide, by decide, by decide, by decide⟩

/-- Witness for C3: the compress-direction write wrapper and the
decompress-direction read wrapper (under a nonzero budget remainder) pass
the user callback's results through, and an exhausted budget yields
`END_OF_STREAM` from the read wrapper. -/
theorem c3_unlimited_side_passthrough_witness :
    (squash_splice_custom_limited_write 7 c3CtxC).1
        = (c3CtxC.write_func 7 c3CtxC.user_data).1
      ∧ (squash_splice_custom_limited_read 7 c3CtxB).2.1
        = (c3CtxB.read_func 7 c3CtxB.user_data).2.1
      ∧ squash_splice_custom_limited_read 7 c3Ctx
        = (SQUASH_END_OF_STREAM, 0, c3Ctx) :=
  ⟨(c3_unlimited_side_passthrough.1 Nat c3CtxC 7 rfl).1,
    (c3_unlimited_side_passthrough.2.1 Nat c3CtxB 7 rfl (by decide)).2.1,
    c3_unlimited_side_passthrough.2.2 Nat c3Ctx 7 rfl rfl⟩

/-- C7: the limited write wrapper in decompress direction clamps the
offered length to `min dl remaining`; a clamped length of zero yields
`END_OF_STREAM` with length 0 and an unchanged context for every user
write callback (the callback is not invoked); otherwise the user callback
receives exactly the clamped length, and when it reports a non-negative
status the wrapper returns that status and the callback-reported length,
decrementing `remaining` and incrementing `written` by the bytes actually
written — output beyond the budget is thereby discarded without raising
an error. -/
theorem c7_limited_write_decompress :
    ∀ (σ : Type) (ctx : LimCtx σ) (dl : Nat),
      ctx.stream_type = StreamType.decompress →
      (min dl ctx.remaining = 0 →
        squash_splice_custom_limited_write dl ctx
          = (SQUASH_END_OF_STREAM, 0, ctx))
      ∧ (∀ (res : Int) (w : Nat) (s1 : σ),
          min dl ctx.remaining ≠ 0 →
          ctx.write_func (min dl ctx.remaining) ctx.user_data = (res, w, s1) →
          0 ≤ res →
          squash_splice_custom_limited_write dl ctx
            = (res, w,
                { ctx with
                    user_data := s1
                    remaining := ctx.remaining - w
                    written := ctx.written + w })) := by
  intro σ ctx dl hst
  have hmin : (if ctx.remaining < dl then ctx.remaining else dl)
      = min dl ctx.remaining := by
    rcases Nat.lt_or_ge ctx.remaining dl with h | h
    · rw [if_pos h, Nat.min_eq_right (Nat.le_of_lt h)]
    · rw [if_neg (Nat.not_lt.mpr h), Nat.min_eq_left h]
  constructor
  · intro hm
    simp [squash_splice_custom_limited_write, hst, hmin, hm]
  · intro res w s1 hm hw hres
    simp [squash_splice_custom_limited_write, hst, hmin, hm, hw,
      Int.not_lt.mpr hres]

/-- Witness for C7: with a budget remainder of 3 and an offer of 5 bytes,
the delegate receives 3, `remaining` drops to 0 and `written` rises to 3;
with the budget exhausted, `END_OF_STREAM` comes back and the context is
untouched. -/
theorem c7_limited_write_decompress_witness :
    squash_splice_custom_limited_write 5 c7Ctx
        = (SQUASH_OK, 3,
            { c7Ctx with
                user_data := 3
                remaining := 0
                written := 3 })
      ∧ squash_splice_custom_limited_write 5 c7CtxZ
        = (SQUASH_END_OF_STREAM, 0, c7CtxZ) :=
  ⟨(c7_limited_write_decompress Nat c7Ctx 5 rfl).2 SQUASH_OK 3 3 (by decide)
      rfl (by decide),
    (c7_limited_write_decompress Nat c7CtxZ 5 rfl).1 rfl⟩

/-- C4 (code bug): evaluating the stream loop at a write callback that
always fails with a negative status.  The first iteration reads 512 bytes
(read counter 1), the codec produces 10 bytes, and the drain's write call
fails with the I/O error status (write counter 1) — yet the loop
continues: the failing status lives only in the drain-local `res2`, which
the source discards after breaking out of the drain, so the outer loop
reads again (read counter reaches 2, i.e. further input is processed
after the failed write) and the splice finishes with `SQUASH_OK` instead
of aborting with the write error. -/
theorem c4_stream_write_error_not_fatal :
    spliceCustomStream c4Read c4Write c4Process c4Finish StreamType.compress 0 3
        0 (0, 0)
      = some (SQUASH_OK, ⟨0, 512, 512, 10, 0⟩, (2, 1)) := by decide

/-- C6: in the stream-loop path, when decompressing under a nonzero
budget, if a process step leaves `total_out` beyond `length`, the
iteration subtracts the overshoot from the bytes drained to the write
callback, forces the step result to `OK` and raises `eof`; with a sink
callback that accepts everything, counting delivered bytes, and a history
in which everything produced before the step had been delivered
(`delivered = total_out`), the total delivered when the iteration ends is
exactly `length`. -/
theorem c6_overshoot_clamped :
    ∀ (process finish : StreamSt → Int × StreamSt) (length fuel : Nat)
      (st st2 : StreamSt) (res : Int),
      process { st with avail_out := SQUASH_SPLICE_BUF_SIZE } = (res, st2) →
      0 ≤ res →
      st2.avail_out ≤ SQUASH_SPLICE_BUF_SIZE →
      st2.total_out = st.total_out + (SQUASH_SPLICE_BUF_SIZE - st2.avail_out) →
      st.total_out ≤ length →
      length < st2.total_out →
      innerLoop process finish countWrite true length (fuel + 1) st false
          st.total_out
        = some (SQUASH_OK, st2, true, length) := by
  intro process finish length fuel st st2 res hpr hres hao htot h0 hov
  have hlt : ¬ res < 0 := Int.not_lt.mpr hres
  rw [innerLoop]
  simp only [Bool.false_eq_true, if_false, hpr, if_neg hlt, eq_self_iff_true,
    true_and]
  rw [if_pos hov, if_pos hov, if_pos hov, drainLoop_countWrite]
  have hsum : st.total_out
      + (SQUASH_SPLICE_BUF_SIZE - st2.avail_out - (st2.total_out - length))
      = length := by omega
  rw [hsum]
  exact if_neg (by decide : ¬ SQUASH_OK = SQUASH_PROCESSING)

/-- Witness for C6: with 3 bytes already emitted and delivered, a budget
of 5, and a step producing 4 bytes (total 7, overshoot 2), the iteration
delivers 2 more bytes — totalling exactly 5 — raises `eof` and ends with
`OK`. -/
theorem c6_overshoot_clamped_witness :
    innerLoop c6Process c6Finish countWrite true 5 1 c6St false 3
      = some (SQUASH_OK, ⟨0, 508, 0, 7, 0⟩, true, 5) :=
  c6_overshoot_clamped c6Process c6Finish 5 0 c6St ⟨0, 508, 0, 7, 0⟩ SQUASH_OK
    (by decide) (by decide) (by decide) (by decide) (by decide) (by decide)
